import Mathlib

/-!
Verification development for the NLevel trader tracker
(source: src/streamlit_app.py).

The source is a single Streamlit script.  Its logic core is:

* constants MAX_LEVEL, LEVEL_GROWTH_RATE, BASE_BALANCE, BASE_LOT_SIZE,
  MAX_LOSS_PCT (lines 19-23);
* calculate_current_level (lines 26-31);
* get_level_requirements (lines 33-51);
* the trade-processing block (lines 79-120), which validates the submitted
  profit and loss amounts, applies the balance delta, checks for a level-up
  banner, checks the risk-limit reset, and appends one row to the trade
  ledger.

Numeric values are modelled by exact rationals (the level thresholds and
amounts are exact decimals; the spec treats balances as decimals, so exact
arithmetic is the intended semantics).  The session state mutated by the
script (current_balance and the trades frame) becomes an explicit
EngineState threaded through apply_trade.
-/

namespace NLevel

/-- MAX_LEVEL = 40 (line 19). -/
def MAX_LEVEL : ℕ := 40

/-- LEVEL_GROWTH_RATE = 1.30 (line 20). -/
def LEVEL_GROWTH_RATE : ℚ := 13 / 10

/-- BASE_BALANCE = 20.00 (line 21). -/
def BASE_BALANCE : ℚ := 20

/-- BASE_LOT_SIZE = 0.03 (line 22). -/
def BASE_LOT_SIZE : ℚ := 3 / 100

/-- MAX_LOSS_PCT = 0.30 (line 23). -/
def MAX_LOSS_PCT : ℚ := 3 / 10

/--
calculate_current_level (lines 26-31):

    if balance < BASE_BALANCE: return 1
    level = floor(log(balance / BASE_BALANCE) / log(LEVEL_GROWTH_RATE)) + 1
    return min(level, MAX_LEVEL)

For balance ≥ BASE_BALANCE the quantity
floor(log(balance / BASE_BALANCE) / log(LEVEL_GROWTH_RATE)) is the largest
k ≥ 0 with LEVEL_GROWTH_RATE ^ k ≤ balance / BASE_BALANCE, so
floor(...) + 1 counts the exponents k with
BASE_BALANCE * LEVEL_GROWTH_RATE ^ k ≤ balance.  Because the returned level
is clamped by min to MAX_LEVEL, counting only the exponents
k < MAX_LEVEL gives the identical result; this makes the definition
executable over ℚ.  The theorem calculate_current_level_eq_floor_log below
proves this embedding equal to the floor-of-logarithm form of the source.
-/
def calculate_current_level (balance : ℚ) : ℕ :=
  if balance < BASE_BALANCE then 1
  else
    min ((List.range MAX_LEVEL).countP fun k =>
      decide (BASE_BALANCE * LEVEL_GROWTH_RATE ^ k ≤ balance)) MAX_LEVEL

/-- The record returned by get_level_requirements (lines 45-51). -/
structure LevelRequirements where
  starting_balance : ℚ
  level_up_requirement : ℚ
  target_balance : ℚ
  lot_size : ℚ
  risk_limit : ℚ
  deriving DecidableEq, Repr

/--
get_level_requirements (lines 33-51): the level argument is an integer
(the source passes ints from calculate_current_level and from range
loops; Python evaluates the ** with any integer exponent, modelled by
zpow).
-/
def get_level_requirements (level : ℤ) : LevelRequirements :=
  let starting_balance : ℚ :=
    if level = 1 then BASE_BALANCE
    else BASE_BALANCE * LEVEL_GROWTH_RATE ^ (level - 1)
  { starting_balance := starting_balance
    level_up_requirement := starting_balance * (LEVEL_GROWTH_RATE - 1)
    target_balance := starting_balance * LEVEL_GROWTH_RATE
    lot_size := BASE_LOT_SIZE + (1 / 100 : ℚ) * ((level : ℚ) - 1)
    risk_limit := starting_balance * MAX_LOSS_PCT }

/--
One submitted trade form (lines 63-76): pair and platform selections, the
profit and loss number inputs, and the date/time stamp (modelled by an
opaque natural tick; the logic never inspects it).
-/
structure TradeEvent where
  date : ℕ
  pair : String
  venue : String
  profit : ℚ
  loss : ℚ
  deriving DecidableEq, Repr

/-- One row of the trades frame (columns on lines 12-14, built on 107-116). -/
structure LedgerEntry where
  date : ℕ
  pair : String
  venue : String
  profit : ℚ
  loss : ℚ
  level : ℕ
  lot_size : ℚ
  balance : ℚ
  deriving DecidableEq, Repr

/-- The session state of the script: current_balance and trades (lines 11-16). -/
structure EngineState where
  current_balance : ℚ
  trades : List LedgerEntry
  deriving DecidableEq, Repr

/--
What the trade-processing block reports to the user: the validation error
(line 81), or acceptance together with whether the LEVEL UP banner
(lines 94-96) and the MAX LOSS reset banner (lines 99-101) fired.
-/
inductive ApplyResult where
  | rejected : ApplyResult
  | accepted : Bool → Bool → ApplyResult
  deriving DecidableEq, Repr

/-- True when the MAX LOSS reset banner fired. -/
def ApplyResult.isReset : ApplyResult → Bool
  | .rejected => false
  | .accepted _ r => r

/-- True when the LEVEL UP banner fired. -/
def ApplyResult.isLevelUp : ApplyResult → Bool
  | .rejected => false
  | .accepted u _ => u

/--
The trade-processing block (lines 79-120), as a function of the session
state and the submitted event:

    if profit == 0 and loss == 0: error, no state change
    current_level = calculate_current_level(current_balance)
    level_reqs = get_level_requirements(current_level)
    if profit > 0: current_balance += profit else: current_balance -= loss
    new_level = calculate_current_level(current_balance)   # LEVEL UP banner
    if loss > 0 and loss >= level_reqs["risk_limit"]:
        current_balance = BASE_BALANCE                     # reset banner
    new_level = calculate_current_level(current_balance)
    level_reqs = get_level_requirements(new_level)
    trades = concat(trades, [new row])
-/
def apply_trade (st : EngineState) (ev : TradeEvent) : EngineState × ApplyResult :=
  if ev.profit = 0 ∧ ev.loss = 0 then
    (st, ApplyResult.rejected)
  else
    let current_level := calculate_current_level st.current_balance
    let level_reqs := get_level_requirements (current_level : ℤ)
    let balance1 : ℚ :=
      if 0 < ev.profit then st.current_balance + ev.profit
      else st.current_balance - ev.loss
    let leveled_up := decide (current_level < calculate_current_level balance1)
    let hit_reset := 0 < ev.loss ∧ level_reqs.risk_limit ≤ ev.loss
    let balance2 : ℚ := if hit_reset then BASE_BALANCE else balance1
    let new_level := calculate_current_level balance2
    let new_reqs := get_level_requirements (new_level : ℤ)
    let entry : LedgerEntry :=
      { date := ev.date
        pair := ev.pair
        venue := ev.venue
        profit := ev.profit
        loss := ev.loss
        level := new_level
        lot_size := new_reqs.lot_size
        balance := balance2 }
    ({ current_balance := balance2, trades := st.trades ++ [entry] },
      ApplyResult.accepted leveled_up (decide hit_reset))

/-- Counting elements of List.range below a cut-off. -/
theorem countP_range_eq_min {p : ℕ → Bool} {m : ℕ} (n : ℕ)
    (hp : ∀ k, p k = true ↔ k < m) :
    (List.range n).countP p = min m n := by
  induction n with
  | zero => simp
  | succ n ih =>
    rw [List.range_succ, List.countP_append, ih]
    rcases Nat.lt_or_ge n m with h | h
    · have hpn : p n = true := (hp n).mpr h
      simp only [List.countP_cons, List.countP_nil, hpn, if_pos]
      omega
    · have hpn : p n = false := by
        cases hpt : p n
        · rfl
        · exact absurd ((hp n).mp hpt) (by omega)
      simp only [List.countP_cons, List.countP_nil, hpn]
      simp only [Bool.false_eq_true, if_false]
      omega

theorem one_lt_growth : (1 : ℚ) < LEVEL_GROWTH_RATE := by
  norm_num [LEVEL_GROWTH_RATE]

/-- Levels below MAX_LEVEL are characterised by a window of balances. -/
theorem calculate_current_level_eq (b : ℚ) (L : ℕ) (h1 : 1 ≤ L)
    (h40 : L ≤ MAX_LEVEL)
    (hlo : BASE_BALANCE * LEVEL_GROWTH_RATE ^ (L - 1) ≤ b)
    (hhi : b < BASE_BALANCE * LEVEL_GROWTH_RATE ^ L) :
    calculate_current_level b = L := by
  have hb : BASE_BALANCE ≤ b := by
    have h0 : (1 : ℚ) ≤ LEVEL_GROWTH_RATE ^ (L - 1) :=
      one_le_pow₀ one_lt_growth.le
    have := mul_le_mul_of_nonneg_left h0 (by norm_num [BASE_BALANCE] : (0:ℚ) ≤ BASE_BALANCE)
    simpa using this.trans hlo
  have hp : ∀ k, (decide (BASE_BALANCE * LEVEL_GROWTH_RATE ^ k ≤ b) = true) ↔ k < L := by
    intro k
    rw [decide_eq_true_eq]
    constructor
    · intro hk
      by_contra hkL
      have hLk : L ≤ k := by omega
      have hpow : LEVEL_GROWTH_RATE ^ L ≤ LEVEL_GROWTH_RATE ^ k :=
        pow_le_pow_right₀ one_lt_growth.le hLk
      have : BASE_BALANCE * LEVEL_GROWTH_RATE ^ L ≤ BASE_BALANCE * LEVEL_GROWTH_RATE ^ k :=
        mul_le_mul_of_nonneg_left hpow (by norm_num [BASE_BALANCE])
      exact absurd (this.trans hk) (not_le.mpr hhi)
    · intro hk
      have hkL : k ≤ L - 1 := by omega
      have hpow : LEVEL_GROWTH_RATE ^ k ≤ LEVEL_GROWTH_RATE ^ (L - 1) :=
        pow_le_pow_right₀ one_lt_growth.le hkL
      have : BASE_BALANCE * LEVEL_GROWTH_RATE ^ k ≤ BASE_BALANCE * LEVEL_GROWTH_RATE ^ (L - 1) :=
        mul_le_mul_of_nonneg_left hpow (by norm_num [BASE_BALANCE])
      exact this.trans hlo
  rw [calculate_current_level, if_neg (not_lt.mpr hb),
    countP_range_eq_min MAX_LEVEL hp]
  omega

/-- Any balance at or past the last threshold is at MAX_LEVEL. -/
theorem calculate_current_level_eq_max (b : ℚ)
    (hlo : BASE_BALANCE * LEVEL_GROWTH_RATE ^ (MAX_LEVEL - 1) ≤ b) :
    calculate_current_level b = MAX_LEVEL := by
  have hb : BASE_BALANCE ≤ b := by
    have h0 : (1 : ℚ) ≤ LEVEL_GROWTH_RATE ^ (MAX_LEVEL - 1) :=
      one_le_pow₀ one_lt_growth.le
    have := mul_le_mul_of_nonneg_left h0 (by norm_num [BASE_BALANCE] : (0:ℚ) ≤ BASE_BALANCE)
    simpa using this.trans hlo
  have hall : (List.range MAX_LEVEL).countP
      (fun k => decide (BASE_BALANCE * LEVEL_GROWTH_RATE ^ k ≤ b)) =
      (List.range MAX_LEVEL).length := by
    rw [List.countP_eq_length]
    intro k hk
    rw [decide_eq_true_eq]
    have hkL : k ≤ MAX_LEVEL - 1 := by
      have := List.mem_range.mp hk
      omega
    have hpow : LEVEL_GROWTH_RATE ^ k ≤ LEVEL_GROWTH_RATE ^ (MAX_LEVEL - 1) :=
      pow_le_pow_right₀ one_lt_growth.le hkL
    have : BASE_BALANCE * LEVEL_GROWTH_RATE ^ k ≤ BASE_BALANCE * LEVEL_GROWTH_RATE ^ (MAX_LEVEL - 1) :=
      mul_le_mul_of_nonneg_left hpow (by norm_num [BASE_BALANCE])
    exact this.trans hlo
  rw [calculate_current_level, if_neg (not_lt.mpr hb), hall, List.length_range]
  omega

/-- The level is always at least 1. -/
theorem one_le_calculate_current_level (b : ℚ) :
    1 ≤ calculate_current_level b := by
  rw [calculate_current_level]
  split
  · exact le_refl 1
  · rename_i hb
    have h0 : (decide (BASE_BALANCE * LEVEL_GROWTH_RATE ^ (0:ℕ) ≤ b) = true) := by
      rw [decide_eq_true_eq]
      simpa using not_lt.mp hb
    have hmem : (0:ℕ) ∈ List.range MAX_LEVEL := by
      simp [MAX_LEVEL]
    have hpos : 0 < (List.range MAX_LEVEL).countP
        (fun k => decide (BASE_BALANCE * LEVEL_GROWTH_RATE ^ k ≤ b)) :=
      List.countP_pos_iff.mpr ⟨0, hmem, h0⟩
    have : 0 < MAX_LEVEL := by norm_num [MAX_LEVEL]
    omega

/-- The level never exceeds MAX_LEVEL. -/
theorem calculate_current_level_le_max (b : ℚ) :
    calculate_current_level b ≤ MAX_LEVEL := by
  rw [calculate_current_level]
  split
  · norm_num [MAX_LEVEL]
  · exact Nat.min_le_right _ _

/-- The starting_balance field, with the let of the source unfolded. -/
theorem starting_balance_def (level : ℤ) :
    (get_level_requirements level).starting_balance =
      if level = 1 then BASE_BALANCE
      else BASE_BALANCE * LEVEL_GROWTH_RATE ^ (level - 1) := rfl

/-- The risk_limit field, with the let of the source unfolded. -/
theorem risk_limit_def (level : ℤ) :
    (get_level_requirements level).risk_limit =
      (if level = 1 then BASE_BALANCE
       else BASE_BALANCE * LEVEL_GROWTH_RATE ^ (level - 1)) * MAX_LOSS_PCT := rfl

/-- The lot_size field, with the let of the source unfolded. -/
theorem lot_size_def (level : ℤ) :
    (get_level_requirements level).lot_size =
      BASE_LOT_SIZE + (1 / 100 : ℚ) * ((level : ℚ) - 1) := rfl

/-- For levels ≥ 1 the two branches of get_level_requirements agree. -/
theorem starting_balance_of_pos (L : ℕ) (h1 : 1 ≤ L) :
    (get_level_requirements (L : ℤ)).starting_balance =
      BASE_BALANCE * LEVEL_GROWTH_RATE ^ (L - 1) := by
  rw [starting_balance_def]
  by_cases hL : (L : ℤ) = 1
  · have hL1 : L = 1 := by omega
    subst hL1
    simp
  · rw [if_neg hL]
    have hc : ((L : ℤ) - 1) = ((L - 1 : ℕ) : ℤ) := by omega
    rw [hc, zpow_natCast]

/-- The final balance of an accepted trade, read off the source branches. -/
theorem apply_trade_balance (st : EngineState) (ev : TradeEvent)
    (h : ¬(ev.profit = 0 ∧ ev.loss = 0)) :
    (apply_trade st ev).1.current_balance =
      if 0 < ev.loss ∧
          (get_level_requirements
            (calculate_current_level st.current_balance : ℤ)).risk_limit ≤ ev.loss
      then BASE_BALANCE
      else if 0 < ev.profit then st.current_balance + ev.profit
      else st.current_balance - ev.loss := by
  rw [apply_trade, if_neg h]

/-- The reported outcome of an accepted trade. -/
theorem apply_trade_result (st : EngineState) (ev : TradeEvent)
    (h : ¬(ev.profit = 0 ∧ ev.loss = 0)) :
    (apply_trade st ev).2 =
      ApplyResult.accepted
        (decide (calculate_current_level st.current_balance <
          calculate_current_level
            (if 0 < ev.profit then st.current_balance + ev.profit
             else st.current_balance - ev.loss)))
        (decide (0 < ev.loss ∧
          (get_level_requirements
            (calculate_current_level st.current_balance : ℤ)).risk_limit ≤ ev.loss)) := by
  rw [apply_trade, if_neg h]

/-- Balances strictly below the base are at level 1 (source line 28). -/
theorem level_of_lt_base {b : ℚ} (h : b < BASE_BALANCE) :
    calculate_current_level b = 1 := by
  rw [calculate_current_level, if_pos h]

/-- The base balance itself sits at level 1. -/
theorem level_twenty : calculate_current_level 20 = 1 := by
  have := calculate_current_level_eq 20 1 le_rfl (by norm_num [MAX_LEVEL])
    (by norm_num [BASE_BALANCE, LEVEL_GROWTH_RATE])
    (by norm_num [BASE_BALANCE, LEVEL_GROWTH_RATE])
  exact this

/-- The level-1 risk limit is 20.00 × 0.30 = 6.00. -/
theorem risk_limit_one : (get_level_requirements 1).risk_limit = 6 := by
  rw [risk_limit_def]
  norm_num [BASE_BALANCE, MAX_LOSS_PCT]

/--
Fidelity of the executable level function to the source: for
balance ≥ BASE_BALANCE the value equals
min(floor(log(balance / BASE_BALANCE) / log(LEVEL_GROWTH_RATE)) + 1,
MAX_LEVEL), the exact expression of source lines 30-31 read over the
reals.
-/
theorem calculate_current_level_eq_floor_log (b : ℚ) (hb : ¬ b < BASE_BALANCE) :
    (calculate_current_level b : ℤ) =
      min (⌊Real.log ((b : ℝ) / (BASE_BALANCE : ℝ)) /
            Real.log ((LEVEL_GROWTH_RATE : ℝ))⌋ + 1) (MAX_LEVEL : ℤ) := by
  have hbase : ((BASE_BALANCE : ℚ) : ℝ) = 20 := by norm_num [BASE_BALANCE]
  have hgrowth : (1 : ℝ) < ((LEVEL_GROWTH_RATE : ℚ) : ℝ) := by
    norm_num [LEVEL_GROWTH_RATE]
  have hb20 : (20 : ℝ) ≤ (b : ℝ) := by
    have h0 : BASE_BALANCE ≤ b := not_lt.mp hb
    have h1 : ((BASE_BALANCE : ℚ) : ℝ) ≤ (b : ℝ) := by exact_mod_cast h0
    rw [hbase] at h1
    exact h1
  have hx1 : (1 : ℝ) ≤ (b : ℝ) / ((BASE_BALANCE : ℚ) : ℝ) := by
    rw [hbase, le_div_iff₀ (by norm_num : (0:ℝ) < 20)]
    linarith
  have hx0 : (0 : ℝ) < (b : ℝ) / ((BASE_BALANCE : ℚ) : ℝ) := by linarith
  rw [Real.log_div_log]
  set F := ⌊Real.logb ((LEVEL_GROWTH_RATE : ℚ) : ℝ)
    ((b : ℝ) / ((BASE_BALANCE : ℚ) : ℝ))⌋ with hF
  have hF0 : 0 ≤ F :=
    Int.le_floor.mpr (by simpa using Real.logb_nonneg hgrowth hx1)
  have hp : ∀ k : ℕ,
      (decide (BASE_BALANCE * LEVEL_GROWTH_RATE ^ k ≤ b) = true) ↔ k < F.toNat + 1 := by
    intro k
    rw [decide_eq_true_eq]
    have step1 : (BASE_BALANCE * LEVEL_GROWTH_RATE ^ k ≤ b) ↔
        (((BASE_BALANCE : ℚ) : ℝ) * ((LEVEL_GROWTH_RATE : ℚ) : ℝ) ^ k ≤ (b : ℝ)) := by
      constructor
      · intro h1
        exact_mod_cast h1
      · intro h1
        exact_mod_cast h1
    have step2 : (((BASE_BALANCE : ℚ) : ℝ) * ((LEVEL_GROWTH_RATE : ℚ) : ℝ) ^ k ≤ (b : ℝ)) ↔
        (((LEVEL_GROWTH_RATE : ℚ) : ℝ) ^ k ≤ (b : ℝ) / ((BASE_BALANCE : ℚ) : ℝ)) := by
      rw [hbase, le_div_iff₀ (by norm_num : (0:ℝ) < 20), mul_comm]
    have step3 : (((LEVEL_GROWTH_RATE : ℚ) : ℝ) ^ k ≤ (b : ℝ) / ((BASE_BALANCE : ℚ) : ℝ)) ↔
        ((k : ℝ) ≤ Real.logb ((LEVEL_GROWTH_RATE : ℚ) : ℝ)
          ((b : ℝ) / ((BASE_BALANCE : ℚ) : ℝ))) := by
      rw [Real.le_logb_iff_rpow_le hgrowth hx0, Real.rpow_natCast]
    have step4 : ((k : ℝ) ≤ Real.logb ((LEVEL_GROWTH_RATE : ℚ) : ℝ)
          ((b : ℝ) / ((BASE_BALANCE : ℚ) : ℝ))) ↔ ((k : ℤ) ≤ F) := by
      rw [hF, Int.le_floor]
      norm_num
    rw [step1, step2, step3, step4]
    omega
  rw [calculate_current_level, if_neg hb, countP_range_eq_min MAX_LEVEL hp]
  push_cast [Int.toNat_of_nonneg hF0]
  omega

/--
C4: calculate_current_level is total over all rational balances and
returns 1 for every balance strictly below BASE_BALANCE = 20.00,
including zero and negative balances; on the complementary branch the
argument handed to the logarithm, balance / BASE_BALANCE, is strictly
positive, so the logarithm is never evaluated on a non-positive argument.
-/
theorem c4_level_total_below_base (b : ℚ) :
    (b < BASE_BALANCE → calculate_current_level b = 1) ∧
    (¬ b < BASE_BALANCE → (0 : ℚ) < b / BASE_BALANCE) := by
  constructor
  · intro h
    exact level_of_lt_base h
  · intro h
    have hb : (0 : ℚ) < b :=
      lt_of_lt_of_le (by norm_num [BASE_BALANCE]) (not_lt.mp h)
    exact div_pos hb (by norm_num [BASE_BALANCE])

/-- Witness for C4 at the inputs 0 and -5. -/
theorem c4_witness :
    calculate_current_level 0 = 1 ∧ calculate_current_level (-5) = 1 :=
  ⟨(c4_level_total_below_base 0).1 (by norm_num [BASE_BALANCE]),
   (c4_level_total_below_base (-5)).1 (by norm_num [BASE_BALANCE])⟩

/--
C6: calculate_current_level is monotone non-decreasing: if b1 ≤ b2 then
calculate_current_level b1 ≤ calculate_current_level b2.
-/
theorem c6_level_monotone (b1 b2 : ℚ) (h : b1 ≤ b2) :
    calculate_current_level b1 ≤ calculate_current_level b2 := by
  by_cases h1 : b1 < BASE_BALANCE
  · rw [level_of_lt_base h1]
    exact one_le_calculate_current_level b2
  · have h2 : ¬ b2 < BASE_BALANCE := fun c => h1 (lt_of_le_of_lt h c)
    rw [calculate_current_level, if_neg h1, calculate_current_level, if_neg h2]
    refine min_le_min ?_ le_rfl
    refine List.countP_mono_left ?_
    intro a _ ha
    rw [decide_eq_true_eq] at ha ⊢
    exact ha.trans h

/-- Witness for C6 at 15 ≤ 30. -/
theorem c6_witness :
    calculate_current_level 15 ≤ calculate_current_level 30 :=
  c6_level_monotone 15 30 (by norm_num)

/--
C8: for every balance, calculate_current_level stays within
[1, MAX_LEVEL] = [1, 40], including balances far beyond the level-40
starting threshold.
-/
theorem c8_level_in_range (b : ℚ) :
    1 ≤ calculate_current_level b ∧ calculate_current_level b ≤ 40 :=
  ⟨one_le_calculate_current_level b,
   le_trans (calculate_current_level_le_max b) (by norm_num [MAX_LEVEL])⟩

/--
C7: round-trip at the level boundary: for every level L in
[1, MAX_LEVEL], calculate_current_level applied to the starting balance
of level L returns L.
-/
theorem c7_round_trip (L : ℕ) (h1 : 1 ≤ L) (h40 : L ≤ MAX_LEVEL) :
    calculate_current_level ((get_level_requirements (L : ℤ)).starting_balance) = L := by
  rw [starting_balance_of_pos L h1]
  rcases Nat.lt_or_ge L MAX_LEVEL with h | h
  · refine calculate_current_level_eq _ L h1 h40 le_rfl ?_
    have hpow : LEVEL_GROWTH_RATE ^ (L - 1) < LEVEL_GROWTH_RATE ^ L :=
      pow_lt_pow_right₀ one_lt_growth (by omega)
    have := mul_lt_mul_of_pos_left hpow
      (show (0 : ℚ) < BASE_BALANCE by norm_num [BASE_BALANCE])
    simpa using this
  · have hL : L = MAX_LEVEL := by omega
    subst hL
    exact calculate_current_level_eq_max _ le_rfl

/-- Witness for C7 at level 2. -/
theorem c7_witness :
    calculate_current_level ((get_level_requirements ((2 : ℕ) : ℤ)).starting_balance) = 2 :=
  c7_round_trip 2 (by norm_num) (by norm_num [MAX_LEVEL])

/--
C5 counterexample: get_level_requirements does not clamp levels below 1.
At level 0 the starting balance is 20 · 1.3⁻¹ = 200/13 ≈ 15.38, not the
level-1 value 20.00, so the claim that every level < 1 yields the same
LevelRequirements as level 1 is false on the code.
-/
theorem c5_counterexample :
    (get_level_requirements 0).starting_balance = 200 / 13 ∧
    (get_level_requirements 1).starting_balance = BASE_BALANCE ∧
    (get_level_requirements 0).starting_balance ≠
      (get_level_requirements 1).starting_balance := by
  have h0 : (get_level_requirements 0).starting_balance = 200 / 13 := by
    rw [starting_balance_def]
    norm_num [BASE_BALANCE, LEVEL_GROWTH_RATE]
  have h1 : (get_level_requirements 1).starting_balance = BASE_BALANCE := by
    rw [starting_balance_def]
    norm_num
  refine ⟨h0, h1, ?_⟩
  rw [h0, h1]
  norm_num [BASE_BALANCE]

/--
C5 amended: get_level_requirements never raises for any integer input
(it is a total function), but it does not clamp: for every level < 1 it
applies the formula of the else-branch as-is, giving
startingBalance = BASE_BALANCE · GROWTH_RATE^(level − 1), which is
strictly below the level-1 starting balance of 20.00.
-/
theorem c5_requirements_no_clamp (level : ℤ) (h : level < 1) :
    (get_level_requirements level).starting_balance =
      BASE_BALANCE * LEVEL_GROWTH_RATE ^ (level - 1) ∧
    (get_level_requirements level).starting_balance < BASE_BALANCE := by
  have hne : level ≠ 1 := by omega
  have hsb : (get_level_requirements level).starting_balance =
      BASE_BALANCE * LEVEL_GROWTH_RATE ^ (level - 1) := by
    rw [starting_balance_def, if_neg hne]
  refine ⟨hsb, ?_⟩
  rw [hsb]
  have hlt1 : LEVEL_GROWTH_RATE ^ (level - 1) < 1 :=
    zpow_lt_one_of_neg₀ one_lt_growth (by omega)
  have := mul_lt_mul_of_pos_left hlt1
    (show (0 : ℚ) < BASE_BALANCE by norm_num [BASE_BALANCE])
  simpa using this

/-- Witness for the amended C5 at level 0. -/
theorem c5_witness :
    (get_level_requirements 0).starting_balance < BASE_BALANCE :=
  (c5_requirements_no_clamp 0 (by norm_num)).2

/--
C3: a trade event with profitAmount = 0 and lossAmount = 0 is rejected
with the validation error and is an atomic no-op: the state (balance and
the whole ledger, hence its length and every entry) is returned
unchanged.
-/
theorem c3_rejects_zero (st : EngineState) (ev : TradeEvent)
    (hp : ev.profit = 0) (hl : ev.loss = 0) :
    apply_trade st ev = (st, ApplyResult.rejected) ∧
    (apply_trade st ev).1.current_balance = st.current_balance ∧
    (apply_trade st ev).1.trades = st.trades := by
  have h : apply_trade st ev = (st, ApplyResult.rejected) := by
    rw [apply_trade, if_pos ⟨hp, hl⟩]
  exact ⟨h, by rw [h], by rw [h]⟩

/-- Witness for C3 at a concrete state and all-zero event. -/
theorem c3_witness :
    apply_trade ⟨20, []⟩ ⟨0, "XAU/USD", "MetaTrader 4", 0, 0⟩ =
      (⟨20, []⟩, ApplyResult.rejected) :=
  (c3_rejects_zero ⟨20, []⟩ ⟨0, "XAU/USD", "MetaTrader 4", 0, 0⟩ rfl rfl).1

/--
C2: starting from balance 20.00 (level 1, riskLimit = 6.00), a trade with
profit 0 and loss 6.00 fires the risk reset (the comparison
loss ≥ riskLimit is inclusive at equality): the resulting balance is
BASE_BALANCE = 20.00 and the outcome is classified as a reset.
-/
theorem c2_reset_at_equality :
    (get_level_requirements 1).risk_limit = 6 ∧
    (apply_trade ⟨20, []⟩ ⟨0, "XAU/USD", "MetaTrader 4", 0, 6⟩).1.current_balance =
      BASE_BALANCE ∧
    (apply_trade ⟨20, []⟩ ⟨0, "XAU/USD", "MetaTrader 4", 0, 6⟩).2.isReset = true := by
  have h : ¬((⟨0, "XAU/USD", "MetaTrader 4", 0, 6⟩ : TradeEvent).profit = 0 ∧
      (⟨0, "XAU/USD", "MetaTrader 4", 0, 6⟩ : TradeEvent).loss = 0) := by
    dsimp only
    norm_num
  refine ⟨risk_limit_one, ?_, ?_⟩
  · rw [apply_trade_balance _ _ h]
    dsimp only
    rw [level_twenty]
    norm_num [risk_limit_one]
  · rw [apply_trade_result _ _ h]
    dsimp only [ApplyResult.isReset]
    rw [level_twenty]
    simp only [decide_eq_true_eq]
    norm_num [risk_limit_one]

/--
C1 counterexample: the code has no catastrophic-loss floor.  From balance
15.00, a loss of 2.00 takes the balance to 13.00, strictly below
BASE_BALANCE × (1 − MAX_LOSS_PCT) = 14.00, while the loss stays strictly
below the level-1 risk limit of 6.00; the claim then demands a reset to
20.00, but the code leaves the balance at 13.00 and reports no reset.
-/
theorem c1_counterexample :
    (15 : ℚ) - 2 < BASE_BALANCE * (1 - MAX_LOSS_PCT) ∧
    (2 : ℚ) < (get_level_requirements (calculate_current_level (15 : ℚ) : ℤ)).risk_limit ∧
    (apply_trade ⟨15, []⟩ ⟨0, "XAU/USD", "MetaTrader 4", 0, 2⟩).1.current_balance = 13 ∧
    (apply_trade ⟨15, []⟩ ⟨0, "XAU/USD", "MetaTrader 4", 0, 2⟩).2.isReset = false ∧
    (13 : ℚ) ≠ BASE_BALANCE := by
  have hlv : calculate_current_level (15 : ℚ) = 1 :=
    level_of_lt_base (by norm_num [BASE_BALANCE])
  have h : ¬((⟨0, "XAU/USD", "MetaTrader 4", 0, 2⟩ : TradeEvent).profit = 0 ∧
      (⟨0, "XAU/USD", "MetaTrader 4", 0, 2⟩ : TradeEvent).loss = 0) := by
    dsimp only
    norm_num
  refine ⟨by norm_num [BASE_BALANCE, MAX_LOSS_PCT], ?_, ?_, ?_, by norm_num [BASE_BALANCE]⟩
  · rw [hlv]
    norm_num [risk_limit_one]
  · rw [apply_trade_balance _ _ h]
    dsimp only
    rw [hlv]
    norm_num [risk_limit_one]
  · rw [apply_trade_result _ _ h]
    dsimp only [ApplyResult.isReset]
    rw [hlv]
    simp only [decide_eq_false_iff_not]
    norm_num [risk_limit_one]

/--
C1 amended: an accepted trade resets the balance to BASE_BALANCE exactly
when a positive loss was supplied and that loss is at least the risk
limit of the level held before the trade; there is no independent
catastrophic-loss floor, so a post-delta balance below
BASE_BALANCE × (1 − MAX_LOSS_PCT) with a loss below the risk limit is
kept as the plain delta result.  (In the scenario of the claim — balance
20.00, loss 13.01 — the reset does fire, but only because
13.01 ≥ riskLimit(1) = 6.00.)
-/
theorem c1_reset_iff_risk_limit (st : EngineState) (ev : TradeEvent)
    (h : ¬(ev.profit = 0 ∧ ev.loss = 0)) :
    ((apply_trade st ev).2.isReset = true ↔
      0 < ev.loss ∧
        (get_level_requirements
          (calculate_current_level st.current_balance : ℤ)).risk_limit ≤ ev.loss) ∧
    ((0 < ev.loss ∧
        (get_level_requirements
          (calculate_current_level st.current_balance : ℤ)).risk_limit ≤ ev.loss) →
      (apply_trade st ev).1.current_balance = BASE_BALANCE) ∧
    (¬(0 < ev.loss ∧
        (get_level_requirements
          (calculate_current_level st.current_balance : ℤ)).risk_limit ≤ ev.loss) →
      (apply_trade st ev).1.current_balance =
        if 0 < ev.profit then st.current_balance + ev.profit
        else st.current_balance - ev.loss) := by
  rw [apply_trade_result _ _ h, apply_trade_balance _ _ h]
  dsimp only [ApplyResult.isReset]
  refine ⟨by simp, ?_, ?_⟩
  · intro hc
    rw [if_pos hc]
  · intro hc
    rw [if_neg hc]

/-- Witness for the amended C1: balance 20.00, loss 13.01 resets to 20.00. -/
theorem c1_witness :
    (apply_trade ⟨20, []⟩ ⟨0, "XAU/USD", "MetaTrader 4", 0, 1301/100⟩).1.current_balance =
      BASE_BALANCE := by
  have h : ¬((⟨0, "XAU/USD", "MetaTrader 4", 0, 1301/100⟩ : TradeEvent).profit = 0 ∧
      (⟨0, "XAU/USD", "MetaTrader 4", 0, 1301/100⟩ : TradeEvent).loss = 0) := by
    dsimp only
    norm_num
  have hc :=
    (c1_reset_iff_risk_limit ⟨20, []⟩ ⟨0, "XAU/USD", "MetaTrader 4", 0, 1301/100⟩ h).2.1
  apply hc
  dsimp only
  rw [level_twenty]
  norm_num [risk_limit_one]

/--
C9: a trade with both profit > 0 and loss > 0 is accepted; the balance
delta applies only the profit (the loss is never subtracted), yet the
reset check still consults the loss — if the loss reaches the risk limit
of the level held before the trade, the balance is reset to BASE_BALANCE
even though only profit was applied, and otherwise the final balance is
the old balance plus the profit.
-/
theorem c9_profit_and_loss (st : EngineState) (ev : TradeEvent)
    (hp : 0 < ev.profit) (hl : 0 < ev.loss) :
    (apply_trade st ev).2 ≠ ApplyResult.rejected ∧
    ((get_level_requirements
        (calculate_current_level st.current_balance : ℤ)).risk_limit ≤ ev.loss →
      (apply_trade st ev).1.current_balance = BASE_BALANCE ∧
      (apply_trade st ev).2.isReset = true) ∧
    (ev.loss < (get_level_requirements
        (calculate_current_level st.current_balance : ℤ)).risk_limit →
      (apply_trade st ev).1.current_balance = st.current_balance + ev.profit ∧
      (apply_trade st ev).2.isReset = false) := by
  have h : ¬(ev.profit = 0 ∧ ev.loss = 0) := by
    intro hc
    rw [hc.1] at hp
    exact lt_irrefl 0 hp
  rw [apply_trade_result _ _ h, apply_trade_balance _ _ h]
  dsimp only [ApplyResult.isReset]
  refine ⟨by simp, ?_, ?_⟩
  · intro hc
    have hcond : 0 < ev.loss ∧
        (get_level_requirements
          (calculate_current_level st.current_balance : ℤ)).risk_limit ≤ ev.loss :=
      ⟨hl, hc⟩
    rw [if_pos hcond]
    refine ⟨rfl, ?_⟩
    simp only [decide_eq_true_eq]
    exact hcond
  · intro hc
    have hcond : ¬(0 < ev.loss ∧
        (get_level_requirements
          (calculate_current_level st.current_balance : ℤ)).risk_limit ≤ ev.loss) :=
      fun c => absurd c.2 (not_le.mpr hc)
    rw [if_neg hcond, if_pos hp]
    exact ⟨rfl, decide_eq_false hcond⟩

/--
Witness for C9: balance 20.00, profit 10.00 and loss 6.00 together; the
loss equals the level-1 risk limit, so the trade is reset to 20.00.
-/
theorem c9_witness :
    (apply_trade ⟨20, []⟩ ⟨0, "XAU/USD", "MetaTrader 4", 10, 6⟩).1.current_balance =
      BASE_BALANCE ∧
    (apply_trade ⟨20, []⟩ ⟨0, "XAU/USD", "MetaTrader 4", 10, 6⟩).2.isReset = true := by
  have hc :=
    (c9_profit_and_loss ⟨20, []⟩ ⟨0, "XAU/USD", "MetaTrader 4", 10, 6⟩
      (by dsimp only; norm_num) (by dsimp only; norm_num)).2.1
  apply hc
  dsimp only
  rw [level_twenty]
  norm_num [risk_limit_one]

/--
C10: every accepted trade appends exactly one ledger entry — the ledger
is the old ledger plus one new row, so its length grows by one and the
existing rows are untouched — and in the new entry the level equals
calculate_current_level of the entry balance, while the lot size equals
the lot size of the requirements for that level.
-/
theorem c10_ledger_append (st : EngineState) (ev : TradeEvent)
    (h : ¬(ev.profit = 0 ∧ ev.loss = 0)) :
    ∃ entry : LedgerEntry,
      (apply_trade st ev).1.trades = st.trades ++ [entry] ∧
      (apply_trade st ev).1.trades.length = st.trades.length + 1 ∧
      (∀ i, i < st.trades.length →
        (apply_trade st ev).1.trades[i]? = st.trades[i]?) ∧
      entry.level = calculate_current_level entry.balance ∧
      entry.lot_size = (get_level_requirements (entry.level : ℤ)).lot_size := by
  rw [apply_trade, if_neg h]
  refine ⟨_, rfl, by simp, ?_, rfl, rfl⟩
  intro i hi
  rw [List.getElem?_append, if_pos hi]

/-- Witness for C10: one accepted trade from an empty ledger yields one row. -/
theorem c10_witness :
    (apply_trade ⟨20, []⟩ ⟨0, "XAU/USD", "MetaTrader 4", 1, 0⟩).1.trades.length = 1 := by
  obtain ⟨e, h1, h2, h3, h4, h5⟩ :=
    c10_ledger_append ⟨20, []⟩ ⟨0, "XAU/USD", "MetaTrader 4", 1, 0⟩
      (by dsimp only; norm_num)
  simpa using h2

end NLevel
